import Mathlib

/-!
Shallow embedding of `src/rdiffbackup/actions/backup.py` (class `BackupAction`):
the preflight validator `check`, the repository initializer `setup`, the mirror
dispatcher `run`, and the failed-initial-backup helpers
`_is_failed_initial_backup` and `_fix_failed_initial_backup`.

Filesystem queries (`lstat`, `isdir`, `listdir`) are represented by their
observed results, carried in explicit state records; side effects (logging,
deletion, directory creation) are recorded as event traces so that ordering
and frame properties can be stated.
-/

namespace RdiffBackup

/-- Log severities used through `self.log(...)` in `backup.py`. -/
inductive Severity
  | ERROR
  | WARNING
  | INFO
  | DEBUG
  | DEFAULT
deriving DecidableEq, Repr

/-- One entry of a directory listing: its name and the result of `isdir()`
on the appended path. -/
structure DirEntry where
  name : String
  isDir : Bool
deriving DecidableEq, Repr

/-- Observable state of the `rdiff-backup-data` directory: its listing
(`rp_dir.listdir()`) and the files contained in its `increments`
sub-directory (what `rpath.delete_dir_no_files` tests for). -/
structure DataDir where
  entries : List DirEntry
  incFiles : List String
deriving DecidableEq, Repr

/-- Character-list prefix test: `charsStartWith x p` is true iff `p` is a
prefix of `x`. -/
def charsStartWith : List Char → List Char → Bool
  | _, [] => true
  | [], _ :: _ => false
  | c :: cs, q :: qs => c == q && charsStartWith cs qs

/-- Python's `x.startswith(p)` on the byte-string names, embedded on the
character lists of the names. -/
def nameStartsWith (x p : String) : Bool :=
  charsStartWith x.data p.data

/-- `charsStartWith` agrees with the prefix relation. -/
theorem charsStartWith_iff (x p : List Char) :
    charsStartWith x p = true ↔ List.IsPrefix p x := by
  induction p generalizing x with
  | nil => cases x <;> simp [charsStartWith]
  | cons q qs ih =>
    cases x with
    | nil =>
      rw [show charsStartWith [] (q :: qs) = false from rfl]
      simp
    | cons c cs =>
      rw [show charsStartWith (c :: cs) (q :: qs) =
            (c == q && charsStartWith cs qs) from rfl]
      rw [Bool.and_eq_true, beq_iff_eq, List.cons_prefix_cons, ih cs]
      exact ⟨fun h => ⟨h.1.symm, h.2⟩, fun h => ⟨h.1.symm, h.2⟩⟩

/-- `nameStartsWith` agrees with the prefix relation on character lists. -/
theorem nameStartsWith_iff (x p : String) :
    nameStartsWith x p = true ↔ List.IsPrefix p.data x.data :=
  charsStartWith_iff x.data p.data

/-- `BackupAction._is_failed_initial_backup(rp_dir)`: `dirExists` is the
result of `rp_dir.lstat()`, `files` the listing `rp_dir.listdir()`. -/
def isFailedInitialBackup (dirExists : Bool) (files : List String) : Bool :=
  if dirExists then
    let mirrorMarkers := files.filter (fun x => nameStartsWith x "current_mirror")
    let errorLogs := files.filter (fun x => nameStartsWith x "error_log")
    let metadataMirrors :=
      files.filter (fun x => nameStartsWith x "mirror_metadata")
    mirrorMarkers.isEmpty && decide (errorLogs.length ≤ 1) &&
      decide (metadataMirrors.length ≤ 1)
  else
    false

/-- Result of `BackupAction._fix_failed_initial_backup`: the data directory
after the repair, the names deleted (in deletion order; `"increments"`
stands for the increments directory itself), and the severities logged. -/
structure FixResult where
  dir : DataDir
  deleted : List String
  logs : List Severity
deriving DecidableEq, Repr

/-- `BackupAction._fix_failed_initial_backup(rp_dir)`.  `resumeSupported` is
false when the connection refuses `rpath.delete_dir_no_files` with
`Security.Violation`; `rpath.RPathException` is raised by that function when
the `increments` path is not a directory or contains files.  The initial
"Found interrupted initial backup ... Removing..." message is logged at
`DEFAULT` severity before anything else. -/
def fixFailedInitialBackup (d : DataDir) (resumeSupported : Bool) : FixResult :=
  let announce := [Severity.DEFAULT]
  let names := d.entries.map (fun en => en.name)
  if names.contains "increments" then
    if !resumeSupported then
      { dir := d, deleted := [], logs := announce ++ [Severity.WARNING] }
    else if !(d.entries.any (fun en => en.name == "increments" && en.isDir)) ||
        !d.incFiles.isEmpty then
      { dir := d, deleted := [], logs := announce ++ [Severity.INFO] }
    else
      let rest := d.entries.eraseP (fun en => en.name == "increments")
      let removed := rest.filter (fun en => !en.isDir)
      { dir := { entries := rest.filter (fun en => en.isDir), incFiles := [] },
        deleted := "increments" :: removed.map (fun en => en.name),
        logs := announce }
  else
    let removed := d.entries.filter (fun en => !en.isDir)
    { dir := { entries := d.entries.filter (fun en => en.isDir),
               incFiles := d.incFiles },
      deleted := removed.map (fun en => en.name),
      logs := announce }

/-- Modelled from the spec: `_get_mirror_time` (the external-interface entry
`getMirrorTimestamp(dataDir) -> timestamp|none`) is defined outside this
file.  It reads the Mirror Timestamp recorded by the most recent completed
backup; absence means no completed backup exists yet.  The callers in
`backup.py` consume the result numerically (`if previous_time:` in `run`,
`previous_time >= Time.curtime` in `check`), so absence is encoded as the
falsy value 0, which is always in the past. -/
def getMirrorTime : Option Int → Int
  | none => 0
  | some t => t

/-- Events emitted by `BackupAction.run`, in program order.
`mirrorAndIncrement` stands for `backup.Mirror_and_increment(rpin, rpout,
_incdir)` and is the only event that receives the increments location;
`mirror` stands for `backup.Mirror(rpin, rpout)`. -/
inductive RunEvent
  | checkdest
  | setPrevTime (t : Int)
  | touchCurMirror
  | mirrorAndIncrement
  | mirror
  | removeCurMirror
  | closeStatistics (t : Int)
deriving DecidableEq, Repr

/-- `BackupAction.run`: `md` is the repository metadata read by
`_get_mirror_time`, `now` the completion time passed to
`backup_close_statistics(time.time())`. -/
def runTrace (md : Option Int) (now : Int) : List RunEvent :=
  let previousTime := getMirrorTime md
  [RunEvent.checkdest] ++
    (if previousTime ≠ 0 then
      [RunEvent.setPrevTime previousTime, RunEvent.touchCurMirror,
       RunEvent.mirrorAndIncrement, RunEvent.removeCurMirror]
    else
      [RunEvent.mirror, RunEvent.touchCurMirror]) ++
    [RunEvent.closeStatistics now]

/-- C3: for an existing data directory, `_is_failed_initial_backup` returns
true iff the listing has no entry starting with `current_mirror`, at most one
entry starting with `error_log`, and at most one entry starting with
`mirror_metadata`. -/
theorem isFailedInitialBackup_iff (files : List String) :
    isFailedInitialBackup true files = true ↔
      ((∀ x ∈ files, ¬ List.IsPrefix "current_mirror".data x.data) ∧
        files.countP (fun x => nameStartsWith x "error_log") ≤ 1 ∧
        files.countP (fun x => nameStartsWith x "mirror_metadata") ≤ 1) := by
  simp [isFailedInitialBackup, List.isEmpty_iff, List.filter_eq_nil_iff,
    List.countP_eq_length_filter, and_assoc, nameStartsWith_iff]

/-- C10: the dispatch in `run` tests the truthiness of the previous mirror
time, so a recorded Mirror Timestamp equal to 0 takes the full-mirror branch
exactly as if no completed backup were recorded. -/
theorem run_zero_timestamp_full_mirror (now : Int) :
    runTrace (some 0) now = runTrace none now ∧
      RunEvent.mirror ∈ runTrace (some 0) now ∧
      RunEvent.mirrorAndIncrement ∉ runTrace (some 0) now := by
  refine ⟨rfl, ?_, ?_⟩ <;> simp [runTrace, getMirrorTime]

/-- C1 fails as stated: a repository whose metadata records the previous
Mirror Timestamp 0 makes `run` invoke the full-mirror collaborator, not the
incremental one. -/
theorem run_dispatch_counterexample :
    RunEvent.mirrorAndIncrement ∉ runTrace (some 0) 7 ∧
      RunEvent.mirror ∈ runTrace (some 0) 7 := by
  decide

/-- C1 (amended): a repository whose metadata records a nonzero previous
Mirror Timestamp makes `run` invoke the incremental collaborator
(`Mirror_and_increment`) and never the full-mirror one; with no recorded
timestamp, or a recorded timestamp equal to 0, `run` invokes the full-mirror
collaborator and never the incremental one, which is the only call that
receives an increments location. -/
theorem run_dispatch (md : Option Int) (now : Int) :
    (∀ t, md = some t → t ≠ 0 →
      RunEvent.mirrorAndIncrement ∈ runTrace md now ∧
        RunEvent.mirror ∉ runTrace md now) ∧
    ((md = none ∨ md = some 0) →
      RunEvent.mirror ∈ runTrace md now ∧
        RunEvent.mirrorAndIncrement ∉ runTrace md now) := by
  constructor
  · rintro t rfl ht
    simp [runTrace, getMirrorTime, ht]
  · rintro (rfl | rfl) <;> simp [runTrace, getMirrorTime]

/-- Witness for `run_dispatch` at the concrete timestamps 5 and none. -/
theorem run_dispatch_witness :
    (RunEvent.mirrorAndIncrement ∈ runTrace (some 5) 9 ∧
      RunEvent.mirror ∉ runTrace (some 5) 9) ∧
    (RunEvent.mirror ∈ runTrace none 9 ∧
      RunEvent.mirrorAndIncrement ∉ runTrace none 9) :=
  ⟨(run_dispatch (some 5) 9).1 5 rfl (by decide),
   (run_dispatch none 9).2 (Or.inl rfl)⟩

/-- The distinct diagnostic messages `BackupAction.check` can log. -/
inductive CheckMsg
  | srcMissing
  | srcNotDir
  | destNotDirForced
  | destNotDirErr
  | timeNotPast
  | notRepoForced
  | notRepoErr
deriving DecidableEq, Repr

/-- Operations observable from `BackupAction.check`: log calls, and (never
emitted by `check`, which is read-only) mutations of a path. -/
inductive CheckOp
  | log (msg : CheckMsg) (sev : Severity)
  | mutate (path : String)
deriving DecidableEq, Repr

/-- Observed filesystem answers and inputs for one `BackupAction.check`
call: `superCode` is the result of `super().check()`, `srcExists` and
`srcIsDir` the answers for `connected_locations[0]`, the `dest` fields the
answers for `connected_locations[1]`, `dataDirExists` the answer of
`lstat()` on the appended `rdiff-backup-data` path, `mirrorMeta` the
metadata read by `_get_mirror_time`, and `curtime` is `Time.curtime`. -/
structure CheckState where
  superCode : Nat
  force : Bool
  srcExists : Bool
  srcIsDir : Bool
  destExists : Bool
  destIsDir : Bool
  destEntries : List String
  dataDirExists : Bool
  mirrorMeta : Option Int
  curtime : Int
deriving Repr

/-- `BackupAction.check`: returns the accumulated verdict together with the
trace of operations performed, in program order. -/
def check (s : CheckState) : Nat × List CheckOp :=
  let r1 : Nat × List CheckOp :=
    if !s.srcExists then
      (s.superCode ||| 1, [CheckOp.log CheckMsg.srcMissing Severity.ERROR])
    else if !s.srcIsDir then
      (s.superCode ||| 1, [CheckOp.log CheckMsg.srcNotDir Severity.ERROR])
    else
      (s.superCode, [])
  if s.destExists && !s.destIsDir then
    if s.force then
      (r1.1, r1.2 ++ [CheckOp.log CheckMsg.destNotDirForced Severity.WARNING])
    else
      (r1.1 ||| 1, r1.2 ++ [CheckOp.log CheckMsg.destNotDirErr Severity.ERROR])
  else if s.destExists && s.destIsDir && !s.destEntries.isEmpty then
    if s.dataDirExists then
      if s.curtime ≤ getMirrorTime s.mirrorMeta then
        (r1.1 ||| 1, r1.2 ++ [CheckOp.log CheckMsg.timeNotPast Severity.ERROR])
      else
        r1
    else
      if s.force then
        (r1.1, r1.2 ++ [CheckOp.log CheckMsg.notRepoForced Severity.WARNING])
      else
        (r1.1 ||| 1, r1.2 ++ [CheckOp.log CheckMsg.notRepoErr Severity.ERROR])
  else
    r1

/-- The source-side problem `check` tests for: missing or non-directory
source. -/
def srcProblem (s : CheckState) : Prop :=
  s.srcExists = false ∨ s.srcIsDir = false

/-- The non-directory-destination problem `check` tests for (overridable by
`force`). -/
def destNotDirProblem (s : CheckState) : Prop :=
  s.destExists = true ∧ s.destIsDir = false ∧ s.force = false

/-- The repository-state problems `check` tests for on a non-empty target
directory: a data directory with a mirror time not strictly in the past, or
a missing data directory without `force`. -/
def repoProblem (s : CheckState) : Prop :=
  s.destExists = true ∧ s.destIsDir = true ∧ s.destEntries ≠ [] ∧
    ((s.dataDirExists = true ∧ s.curtime ≤ getMirrorTime s.mirrorMeta) ∨
      (s.dataDirExists = false ∧ s.force = false))

/-- C6: in the incremental branch `run` writes the current-mirror marker
before invoking the incremental collaborator and removes it after the
collaborator returns; in the full-mirror branch it writes the marker only
after the full-mirror collaborator returns (the single marker write follows
the mirror call); and in both branches the statistics-close collaborator is
invoked last, with the completion timestamp. -/
theorem run_marker_ordering (md : Option Int) (now : Int) :
    (getMirrorTime md ≠ 0 →
      List.Sublist [RunEvent.touchCurMirror, RunEvent.mirrorAndIncrement,
          RunEvent.removeCurMirror] (runTrace md now) ∧
        (runTrace md now).count RunEvent.touchCurMirror = 1) ∧
    (getMirrorTime md = 0 →
      List.Sublist [RunEvent.mirror, RunEvent.touchCurMirror]
          (runTrace md now) ∧
        (runTrace md now).count RunEvent.touchCurMirror = 1) ∧
    (runTrace md now).getLast? = some (RunEvent.closeStatistics now) := by
  by_cases h : getMirrorTime md = 0
  · refine ⟨fun hc => absurd h hc, fun _ => ⟨?_, ?_⟩, ?_⟩
    · simp only [runTrace, h, if_neg (not_not_intro h)]
      exact List.Sublist.cons _
        (List.Sublist.cons₂ _ (List.Sublist.cons₂ _
          (List.Sublist.cons _ List.Sublist.slnil)))
    · simp only [runTrace, h, if_neg (not_not_intro h)]
      rfl
    · simp only [runTrace, h, if_neg (not_not_intro h)]
      rfl
  · refine ⟨fun _ => ⟨?_, ?_⟩, fun hc => absurd hc h, ?_⟩
    · simp only [runTrace, if_pos h]
      exact List.Sublist.cons _ (List.Sublist.cons _
        (List.Sublist.cons₂ _ (List.Sublist.cons₂ _ (List.Sublist.cons₂ _
          (List.Sublist.cons _ List.Sublist.slnil)))))
    · simp only [runTrace, if_pos h]
      rfl
    · simp only [runTrace, if_pos h]
      rfl

/-- Witness for `run_marker_ordering` at the concrete timestamps 4 and
none. -/
theorem run_marker_ordering_witness :
    (List.Sublist [RunEvent.touchCurMirror, RunEvent.mirrorAndIncrement,
        RunEvent.removeCurMirror] (runTrace (some 4) 8) ∧
      (runTrace (some 4) 8).count RunEvent.touchCurMirror = 1) ∧
    (List.Sublist [RunEvent.mirror, RunEvent.touchCurMirror]
        (runTrace none 8) ∧
      (runTrace none 8).count RunEvent.touchCurMirror = 1) :=
  ⟨(run_marker_ordering (some 4) 8).1 (by decide),
   (run_marker_ordering none 8).2.1 rfl⟩

/-- Any verdict with the low bit forced by `return_code |= 1` is nonzero. -/
theorem or_one_ne_zero (n : Nat) : n ||| 1 ≠ 0 := by
  intro h
  have h0 : (n ||| 1).testBit 0 = true := by
    rw [Nat.testBit_or]
    rw [show Nat.testBit 1 0 = true from rfl]
    exact Bool.or_true _
  rw [h] at h0
  simp [Nat.zero_testBit] at h0

/-- C2: a target whose data directory records a Mirror Timestamp that is not
strictly in the past fails validation, whatever the force flag is.
`hmem` expresses that the data directory is itself one of the target's
entries, so the target listing is non-empty. -/
theorem check_future_mirror_time_fails (s : CheckState)
    (hde : s.destExists = true) (hdd : s.destIsDir = true)
    (hmem : "rdiff-backup-data" ∈ s.destEntries)
    (hdata : s.dataDirExists = true)
    (htime : s.curtime ≤ getMirrorTime s.mirrorMeta) :
    ∀ b : Bool, (check { s with force := b }).1 ≠ 0 := by
  intro b
  have hne : s.destEntries.isEmpty = false := by
    cases hent : s.destEntries
    · rw [hent] at hmem
      cases hmem
    · rfl
  simp [check, hde, hdd, hdata, hne, htime, or_one_ne_zero]

/-- A target state whose recorded Mirror Timestamp 10 is ahead of the
current time 5. -/
def futureState : CheckState :=
  { superCode := 0, force := false, srcExists := true, srcIsDir := true,
    destExists := true, destIsDir := true,
    destEntries := ["rdiff-backup-data"], dataDirExists := true,
    mirrorMeta := some 10, curtime := 5 }

/-- Witness for `check_future_mirror_time_fails`: with and without force. -/
theorem check_future_mirror_time_fails_witness :
    (check { futureState with force := false }).1 ≠ 0 ∧
      (check { futureState with force := true }).1 ≠ 0 :=
  ⟨check_future_mirror_time_fails futureState rfl rfl (by simp [futureState])
      rfl (by decide) false,
    check_future_mirror_time_fails futureState rfl rfl (by simp [futureState])
      rfl (by decide) true⟩

/-- C8: a missing or non-directory source makes `check` return a nonzero
verdict, and `check` performs no mutation at all (its trace holds only log
operations). -/
theorem check_bad_source_read_only (s : CheckState)
    (h : s.srcExists = false ∨ s.srcIsDir = false) :
    (check s).1 ≠ 0 ∧ ∀ op ∈ (check s).2, ∀ p, op ≠ CheckOp.mutate p := by
  obtain ⟨sc, force, se, sd, de, dd, ents, dde, mm, ct⟩ := s
  by_cases ht : ct ≤ getMirrorTime mm
  · cases ents <;> cases se <;> cases sd <;> cases de <;> cases dd <;>
      cases force <;> cases dde <;>
      simp_all [check, or_one_ne_zero, if_pos ht]
  · cases ents <;> cases se <;> cases sd <;> cases de <;> cases dd <;>
      cases force <;> cases dde <;>
      simp_all [check, or_one_ne_zero, if_neg ht]

/-- A state whose source path does not exist. -/
def missingSourceState : CheckState :=
  { superCode := 0, force := false, srcExists := false, srcIsDir := false,
    destExists := true, destIsDir := true, destEntries := [],
    dataDirExists := false, mirrorMeta := none, curtime := 5 }

/-- Witness for `check_bad_source_read_only` at a missing source. -/
theorem check_bad_source_read_only_witness :
    (check missingSourceState).1 ≠ 0 ∧
      ∀ op ∈ (check missingSourceState).2, ∀ p, op ≠ CheckOp.mutate p :=
  check_bad_source_read_only missingSourceState (Or.inl rfl)

/-- C9: the verdict of `check` is the OR-combination of the outcome of every
applicable validation check — it is zero iff `super().check()` passed and no
source, destination-type or repository-state problem exists — and the checks
do not short-circuit: a bad source and a bad destination are both reported
in the same pass. -/
theorem check_verdict_aggregation (s : CheckState) :
    ((check s).1 = 0 ↔
      (s.superCode = 0 ∧ ¬srcProblem s ∧ ¬destNotDirProblem s ∧
        ¬repoProblem s)) ∧
    (s.srcExists = false → s.destExists = true → s.destIsDir = false →
      s.force = false →
      CheckOp.log CheckMsg.srcMissing Severity.ERROR ∈ (check s).2 ∧
        CheckOp.log CheckMsg.destNotDirErr Severity.ERROR ∈ (check s).2) := by
  obtain ⟨sc, force, se, sd, de, dd, ents, dde, mm, ct⟩ := s
  constructor
  · by_cases ht : ct ≤ getMirrorTime mm
    · cases ents <;> cases se <;> cases sd <;> cases de <;> cases dd <;>
        cases force <;> cases dde <;>
        simp_all [check, srcProblem, destNotDirProblem, repoProblem,
          or_one_ne_zero, if_pos ht]
    · cases ents <;> cases se <;> cases sd <;> cases de <;> cases dd <;>
        cases force <;> cases dde <;>
        simp_all [check, srcProblem, destNotDirProblem, repoProblem,
          or_one_ne_zero, if_neg ht]
  · intro h1 h2 h3 h4
    subst h1
    subst h2
    subst h3
    subst h4
    simp [check]

/-- A state with both a missing source and a non-directory destination. -/
def doublyBadState : CheckState :=
  { superCode := 0, force := false, srcExists := false, srcIsDir := false,
    destExists := true, destIsDir := false, destEntries := [],
    dataDirExists := false, mirrorMeta := none, curtime := 5 }

/-- Witness for `check_verdict_aggregation`: both problems logged in one
pass. -/
theorem check_verdict_aggregation_witness :
    CheckOp.log CheckMsg.srcMissing Severity.ERROR ∈
        (check doublyBadState).2 ∧
      CheckOp.log CheckMsg.destNotDirErr Severity.ERROR ∈
        (check doublyBadState).2 :=
  (check_verdict_aggregation doublyBadState).2 rfl rfl rfl rfl

/-- C4: on a data directory holding exactly one error-log file, one
metadata-mirror file and an empty `increments` directory (no current-mirror
marker), `_fix_failed_initial_backup` deletes the increments directory
first, then the two remaining files in listing order, leaving the data
directory empty; and, in general, every deleted name is either
`increments` or the name of a file-type entry — no other directory entry is
ever deleted. -/
theorem fix_happy_path (e m : String)
    (he : nameStartsWith e "error_log" = true)
    (hm : nameStartsWith m "mirror_metadata" = true) :
    fixFailedInitialBackup
        { entries := [⟨e, false⟩, ⟨m, false⟩, ⟨"increments", true⟩],
          incFiles := [] } true =
      { dir := { entries := [], incFiles := [] },
        deleted := ["increments", e, m],
        logs := [Severity.DEFAULT] } ∧
    (∀ (d : DataDir) (rs : Bool), ∀ n ∈ (fixFailedInitialBackup d rs).deleted,
      n = "increments" ∨
        ∃ en ∈ d.entries, en.name = n ∧ en.isDir = false) := by
  constructor
  · have hnei : e ≠ "increments" := by
      intro hc
      rw [hc] at he
      exact absurd he (by decide)
    have hnmi : m ≠ "increments" := by
      intro hc
      rw [hc] at hm
      exact absurd hm (by decide)
    have h1 : (e == "increments") = false := beq_eq_false_iff_ne.mpr hnei
    have h2 : ("increments" == e) = false :=
      beq_eq_false_iff_ne.mpr (fun hq => hnei hq.symm)
    have h3 : (m == "increments") = false := beq_eq_false_iff_ne.mpr hnmi
    have h4 : ("increments" == m) = false :=
      beq_eq_false_iff_ne.mpr (fun hq => hnmi hq.symm)
    simp [fixFailedInitialBackup, List.contains, List.elem, List.eraseP,
      h1, h2, h3, h4]
  · intro d rs n hn
    simp only [fixFailedInitialBackup] at hn
    by_cases hc :
        ((d.entries.map (fun en => en.name)).contains "increments") = true
    · rw [if_pos hc] at hn
      cases rs
      · rw [if_pos (by decide)] at hn
        simp at hn
      · rw [if_neg (by decide)] at hn
        by_cases hcond :
            ((!(d.entries.any fun en => en.name == "increments" && en.isDir))
              || !d.incFiles.isEmpty) = true
        · rw [if_pos hcond] at hn
          simp at hn
        · rw [if_neg hcond] at hn
          rcases List.mem_cons.mp hn with h | h
          · exact Or.inl h
          · obtain ⟨en, hen, rfl⟩ := List.mem_map.mp h
            have hf := List.mem_filter.mp hen
            refine Or.inr ⟨en,
              List.Sublist.subset (List.eraseP_sublist _) hf.1, rfl, ?_⟩
            simpa using hf.2
    · rw [if_neg hc] at hn
      obtain ⟨en, hen, rfl⟩ := List.mem_map.mp hn
      have hf := List.mem_filter.mp hen
      refine Or.inr ⟨en, hf.1, rfl, ?_⟩
      simpa using hf.2

/-- Witness for `fix_happy_path` at the plain artifact names. -/
theorem fix_happy_path_witness :
    fixFailedInitialBackup
        { entries := [⟨"error_log", false⟩, ⟨"mirror_metadata", false⟩,
            ⟨"increments", true⟩],
          incFiles := [] } true =
      { dir := { entries := [], incFiles := [] },
        deleted := ["increments", "error_log", "mirror_metadata"],
        logs := [Severity.DEFAULT] } :=
  (fix_happy_path "error_log" "mirror_metadata" (by decide) (by decide)).1

/-- A failed-initial data directory whose increments sub-directory still
contains a file. -/
def abortDir : DataDir :=
  { entries := [⟨"error_log", false⟩, ⟨"mirror_metadata", false⟩,
      ⟨"increments", true⟩],
    incFiles := ["inc.file"] }

/-- C5 fails as stated: on a failed-initial data directory whose increments
directory contains a file, the repair does leave everything untouched but
does not log only at INFO severity — the unconditional announcement is
logged at DEFAULT severity first. -/
theorem fix_abort_counterexample :
    ¬ ((fixFailedInitialBackup abortDir true).dir = abortDir ∧
        ∀ sev ∈ (fixFailedInitialBackup abortDir true).logs,
          sev = Severity.INFO) := by
  decide

/-- C5 (amended): on a data directory classified failed-initial whose
increments sub-directory contains at least one file,
`_fix_failed_initial_backup` leaves every entry untouched and deletes
nothing, and after the unconditional DEFAULT-severity announcement the
abort itself is logged at INFO severity and nothing else is logged. -/
theorem fix_abort_untouched (d : DataDir)
    (_hclass :
      isFailedInitialBackup true (d.entries.map (fun en => en.name)) = true)
    (hinc : ((d.entries.map (fun en => en.name)).contains "increments") = true)
    (hfiles : d.incFiles ≠ []) :
    (fixFailedInitialBackup d true).dir = d ∧
      (fixFailedInitialBackup d true).deleted = [] ∧
      (fixFailedInitialBackup d true).logs =
        [Severity.DEFAULT, Severity.INFO] := by
  have hne : d.incFiles.isEmpty = false := by
    cases hf : d.incFiles
    · exact absurd hf hfiles
    · rfl
  simp only [fixFailedInitialBackup]
  rw [if_pos hinc, if_neg (by decide), if_pos (by rw [hne]; simp)]
  exact ⟨rfl, rfl, rfl⟩

/-- Witness for `fix_abort_untouched` at `abortDir`. -/
theorem fix_abort_untouched_witness :
    (fixFailedInitialBackup abortDir true).dir = abortDir ∧
      (fixFailedInitialBackup abortDir true).deleted = [] ∧
      (fixFailedInitialBackup abortDir true).logs =
        [Severity.DEFAULT, Severity.INFO] :=
  fix_abort_untouched abortDir (by decide) (by decide) (by decide)

/-- Structural mutations `BackupAction.setup` can perform on the target
repository. -/
inductive SetupEvent
  | deleteTarget
  | mkdirTarget
  | makedirsTarget
  | chmodTarget
  | mkdirDataDir
  | mkdirIncsDir
  | deleteEntry (name : String)
deriving DecidableEq, Repr

/-- Observed filesystem answers and inputs for one `BackupAction.setup`
call: `superCode` is the result of `super().setup()`, `outExists` and
`outIsDir` the initial answers for the target location, `createFails`
whether the step-1 delete/create raises `os.error`, `dataDirExists` the
initial answer of `lstat()` on `rdiff-backup-data`, `dataDir` its observed
content (meaningful only when it exists), `resumeSupported` whether the
connection permits `delete_dir_no_files`, and the `mkdir*Fails` flags
whether the corresponding `mkdir()` raises `OSError`/`IOError`. -/
structure SetupState where
  superCode : Nat
  force : Bool
  createFullPath : Bool
  outExists : Bool
  outIsDir : Bool
  createFails : Bool
  dataDirExists : Bool
  dataDir : DataDir
  resumeSupported : Bool
  mkdirDataFails : Bool
  mkdirIncsFails : Bool
deriving Repr

/-- Whether the data-directory listing contains an `increments` entry: the
result of `rp_incs_dir.lstat()` for an existing data directory. -/
def hasIncrements (d : DataDir) : Bool :=
  d.entries.any (fun en => en.name == "increments")

/-- `BackupAction.setup`, up to the structural phase (steps 1-3 of the
Repository Initializer): returns the status code and the trace of
structural mutations, in program order.  A failing operation is modelled as
raising before mutating. -/
def setup (s : SetupState) : Nat × List SetupEvent :=
  if s.superCode ≠ 0 then
    (s.superCode, [])
  else
    let doDelete := s.outExists && !s.outIsDir && s.force
    let targetGone := !s.outExists || doDelete
    if targetGone && s.createFails then
      (1, [])
    else
      let ev1 :=
        (if doDelete then [SetupEvent.deleteTarget] else []) ++
          (if targetGone then
            [(if s.createFullPath then SetupEvent.makedirsTarget
              else SetupEvent.mkdirTarget),
             SetupEvent.chmodTarget]
          else [])
      let dataExists := s.dataDirExists && !targetGone
      if !dataExists then
        if s.mkdirDataFails then
          (1, ev1)
        else
          if s.mkdirIncsFails then
            (1, ev1 ++ [SetupEvent.mkdirDataDir])
          else
            (0, ev1 ++ [SetupEvent.mkdirDataDir, SetupEvent.mkdirIncsDir])
      else
        let fixed :=
          if isFailedInitialBackup true
              (s.dataDir.entries.map (fun en => en.name)) then
            some (fixFailedInitialBackup s.dataDir s.resumeSupported)
          else
            none
        let dirAfter :=
          match fixed with
          | some r => r.dir
          | none => s.dataDir
        let fixEvents :=
          match fixed with
          | some r => r.deleted.map SetupEvent.deleteEntry
          | none => []
        if !hasIncrements dirAfter then
          if s.mkdirIncsFails then
            (1, ev1 ++ fixEvents)
          else
            (0, ev1 ++ fixEvents ++ [SetupEvent.mkdirIncsDir])
        else
          (0, ev1 ++ fixEvents)

/-- C7: on an already-valid repository (target exists and is a directory,
data directory and increments directory exist, data directory not
classified failed-initial) `setup` performs no structural mutation at all:
nothing is deleted, created or re-created, and the status is success.  In
particular a second run of `setup` after a successful one is structurally a
no-op. -/
theorem setup_noop_on_valid (s : SetupState)
    (hsuper : s.superCode = 0)
    (hexists : s.outExists = true)
    (hdir : s.outIsDir = true)
    (hdata : s.dataDirExists = true)
    (hincs : hasIncrements s.dataDir = true)
    (hnotfailed :
      isFailedInitialBackup true
        (s.dataDir.entries.map (fun en => en.name)) = false) :
    setup s = (0, []) := by
  simp [setup, hsuper, hexists, hdir, hdata, hincs, hnotfailed]

/-- A valid repository state: completed marker present, increments
directory present. -/
def validState : SetupState :=
  { superCode := 0, force := false, createFullPath := false,
    outExists := true, outIsDir := true, createFails := false,
    dataDirExists := true,
    dataDir := { entries := [⟨"current_mirror.2021-01-01", false⟩,
                   ⟨"mirror_metadata.2021-01-01", false⟩,
                   ⟨"increments", true⟩],
                 incFiles := [] },
    resumeSupported := true, mkdirDataFails := false,
    mkdirIncsFails := false }

/-- Witness for `setup_noop_on_valid` at `validState`. -/
theorem setup_noop_on_valid_witness : setup validState = (0, []) :=
  setup_noop_on_valid validState rfl rfl rfl rfl (by decide) (by decide)

end RdiffBackup
